import Mathlib

/- Shallow embedding of the elysia turn orchestrator (src/main_app.py) and the
   services it drives (src/llm_service.py, src/tool_service.py).  Python strings
   are modelled as Lean strings (lists of characters), the file system as an
   association list from paths to contents, and each external collaborator
   (inference client, tool implementations) as an explicit function parameter
   whose calls may either return a value or raise. -/

/-- Python literal values produced by tool-argument parsing (strings and numbers). -/
inductive PyLit where
  | str : String → PyLit
  | int : Int → PyLit
deriving DecidableEq, Repr

/-- ASCII model of the whitespace characters stripped by Python str.strip(). -/
def pyIsSpace (c : Char) : Bool :=
  c == ' ' || c == '\t' || c == '\n' || c == '\r' || c == '\x0b' || c == '\x0c'

/-- Python str.strip() on a character list: drop whitespace from both ends. -/
def pyStripL (l : List Char) : List Char :=
  ((l.dropWhile pyIsSpace).reverse.dropWhile pyIsSpace).reverse

/-- Python str.strip() on strings. -/
def pyStrip (s : String) : String :=
  String.mk (pyStripL s.toList)

/-- Python str.lstrip(c): drop every leading occurrence of the character c. -/
def lstripCharL (c : Char) (l : List Char) : List Char :=
  l.dropWhile (· == c)

/-- Python str.rstrip(c): drop every trailing occurrence of the character c. -/
def rstripCharL (c : Char) (l : List Char) : List Char :=
  (l.reverse.dropWhile (· == c)).reverse

/-- Python str.strip(c): drop the character c from both ends. -/
def stripCharL (c : Char) (l : List Char) : List Char :=
  rstripCharL c (lstripCharL c l)

/-- Python str.lower(), restricted to ASCII case mapping. -/
def pyLowerL (l : List Char) : List Char :=
  l.map Char.toLower

/-- One Python literal inside the argument tuple: a quoted string (single or
double quotes, no escape sequences — see `evalPyTuple`) or an optionally signed
integer literal.  Returns the literal and the unconsumed remainder. -/
def parsePyLit : List Char → Option (PyLit × List Char)
  | [] => none
  | c :: rest =>
    if c == '"' || c == '\'' then
      let content := rest.takeWhile (· != c)
      match rest.dropWhile (· != c) with
      | [] => none
      | _ :: rest2 =>
        if content.contains '\\' then none else some (.str (String.mk content), rest2)
    else
      let signed := c == '-'
      let body := if signed then rest else c :: rest
      let digits := body.takeWhile Char.isDigit
      let rest2 := body.dropWhile Char.isDigit
      if digits.isEmpty then none
      else
        let n : Int := Int.ofNat (digits.foldl (fun acc d => acc * 10 + (d.toNat - 48)) 0)
        some (.int (if signed then -n else n), rest2)

/-- Comma-separated list of literals, Python tuple style: items separated by
commas, optional whitespace, an optional trailing comma.  The fuel argument
only bounds recursion; `evalPyTuple` supplies enough for any input. -/
def parsePyItems : Nat → List Char → Option (List PyLit)
  | 0, _ => none
  | fuel + 1, l =>
    match parsePyLit (l.dropWhile pyIsSpace) with
    | none => none
    | some (v, rest) =>
      match rest.dropWhile pyIsSpace with
      | [] => some [v]
      | ',' :: rest2 =>
        if (rest2.dropWhile pyIsSpace).isEmpty then some [v]
        else
          match parsePyItems fuel rest2 with
          | some vs => some (v :: vs)
          | none => none
      | _ => none

/-- Modelled from the spec: main_app.py line 149 evaluates the argument text with
Python's builtin eval, whose interpreter is not part of this repository; the spec
(§4.1) describes the intended fragment as "a parenthesized, comma-separated
literal tuple (strings, numbers)".  This definition is that fragment: the result
of eval applied to the parenthesized argument text when the text is a
comma-separated sequence of quoted string literals (without escape sequences)
and integer literals, `none` when that evaluation raises.  A whitespace-only
text is the empty tuple, a single literal without trailing comma is the scalar
case of main_app.py line 153. -/
def evalPyTuple (args_str : List Char) : Option (List PyLit) :=
  if (args_str.dropWhile pyIsSpace).isEmpty then some []
  else parsePyItems (args_str.length + 1) args_str

/-- A parsed tool invocation: tool name and positional literal arguments
(main_app.py lines 138-159). -/
structure ToolInvocation where
  name : String
  args : List PyLit
deriving DecidableEq, Repr

/-- main_app.py lines 145-159: turn the extracted argument text into the
argument list.  An empty text yields no arguments; otherwise the text is
evaluated as a parenthesized literal tuple, and on evaluation failure the
whole text — stripped of whitespace, then of double quotes, then of single
quotes — becomes the single string argument when nonempty, and no argument
when empty. -/
def parseArgs (args_str : List Char) : List PyLit :=
  if args_str.isEmpty then []
  else
    match evalPyTuple args_str with
    | some vs => vs
    | none =>
      let cleaned := stripCharL '\'' (stripCharL '"' (pyStripL args_str))
      if cleaned.isEmpty then [] else [.str (String.mk cleaned)]

/-- main_app.py line 138: the reply with the five marker characters removed and
stripped of whitespace. -/
def toolCallOf (assistant_reply : String) : List Char :=
  pyStripL (assistant_reply.toList.drop 5)

/-- main_app.py line 141: the text before the first opening parenthesis (the
whole remainder when there is none), stripped of whitespace. -/
def toolNameOf (assistant_reply : String) : List Char :=
  pyStripL ((toolCallOf assistant_reply).takeWhile (· != '('))

/-- main_app.py line 142: what remains of the call text after the name,
stripped of whitespace, then of leading opening parentheses and of trailing
closing parentheses. -/
def argsStrOf (assistant_reply : String) : List Char :=
  rstripCharL ')' (lstripCharL '('
    (pyStripL ((toolCallOf assistant_reply).drop (toolNameOf assistant_reply).length)))

/-- main_app.py line 157: the fallback cleaning of the argument text — strip
whitespace, then double quotes, then single quotes. -/
def cleanedOf (assistant_reply : String) : List Char :=
  stripCharL '\'' (stripCharL '"' (pyStripL (argsStrOf assistant_reply)))

/-- main_app.py lines 135-159, applied to the already stripped reply of line
131: the reply is a tool invocation exactly when its ASCII-lowered text starts
with "tool:"; the tool name and argument list are extracted as in
`toolNameOf`, `argsStrOf` and `parseArgs`. -/
def parseToolCall (assistant_reply : String) : Option ToolInvocation :=
  if ("tool:".toList).isPrefixOf (pyLowerL assistant_reply.toList) then
    some ⟨String.mk (toolNameOf assistant_reply), parseArgs (argsStrOf assistant_reply)⟩
  else none

/-- Outcome of calling one tool implementation: a returned result string or a
raised exception carrying its message. -/
inductive ToolOutcome where
  | ok : String → ToolOutcome
  | raise : String → ToolOutcome
deriving DecidableEq, Repr

/-- The five tool implementations of src/tool_service.py, as opaque
collaborators: each receives the parsed literal arguments and either returns a
result string or raises. -/
structure ToolEnv where
  read_file : PyLit → ToolOutcome
  write_file : PyLit → PyLit → ToolOutcome
  execute_python : PyLit → ToolOutcome
  execute_shell : PyLit → ToolOutcome
  use_gemini : PyLit → ToolOutcome

/-- The fixed name/arity table of the dispatch chain in main_app.py lines
163-176: read_file/1, write_file/2, execute_python/1, execute_shell/1,
use_gemini/1. -/
def knownArity (tool_name : String) (n : Nat) : Bool :=
  (tool_name == "read_file" && n == 1) ||
  (tool_name == "write_file" && n == 2) ||
  (tool_name == "execute_python" && n == 1) ||
  (tool_name == "execute_shell" && n == 1) ||
  (tool_name == "use_gemini" && n == 1)

/-- The if/elif dispatch chain of main_app.py lines 163-178: a known tool name
with exactly matching argument count calls that tool (which may raise); any
other name/argument combination produces the synthetic unknown-tool result
without calling anything. -/
def dispatchBody (tool : ToolEnv) (tool_name : String) (args : List PyLit) : ToolOutcome :=
  match tool_name, args with
  | "read_file", [a] => tool.read_file a
  | "write_file", [a, b] => tool.write_file a b
  | "execute_python", [a] => tool.execute_python a
  | "execute_shell", [a] => tool.execute_shell a
  | "use_gemini", [a] => tool.use_gemini a
  | n, _ => .ok ("[Error: Unknown tool or wrong arguments: " ++ n ++ "]")

/-- main_app.py lines 161-180: the try/except around the dispatch chain.  A
raised exception is caught and converted to the synthetic execution-error
result string; dispatch itself never raises. -/
def dispatchTool (tool : ToolEnv) (tool_name : String) (args : List PyLit) : String :=
  match dispatchBody tool tool_name args with
  | .ok s => s
  | .raise e => "[Error: Exception during tool execution: " ++ e ++ "]"

/-- One role-tagged message of the conversation context. -/
structure Message where
  role : String
  content : String
deriving DecidableEq, Repr

/-- Result of the inner tool loop of main_app.py lines 120-194: the value of
full_response at exit, the number of generate_response calls made by the loop,
the number of tool dispatches executed, whether the loop exited through the
step-bound break of line 186 (bounded = true) rather than through a final
answer, and the message buffer at exit. -/
structure LoopOut where
  fullResponse : String
  inferCallsLoop : Nat
  dispatches : Nat
  bounded : Bool
  messages : List Message
deriving DecidableEq, Repr

/-- The inner while-loop of main_app.py lines 123-194.  step_count, the call
index into the reply stream, and the dispatch count are carried explicitly;
each iteration obtains one reply (line 127, with the None normalization of
line 128 and the strip of line 131), and either dispatches a parsed tool call
— appending the result to the context (line 184) and breaking when the
incremented step_count has reached 5 (line 186) — or exits with the reply as
the final answer (line 193).  The fuel argument only bounds the recursion
depth: the loop itself always exits through the source's own checks, because
each iteration increments step_count and the entry point `toolLoop` starts
with fuel 5 = bound - step_count, so the fuel-exhaustion branch is never
reached from `toolLoop`. -/
def toolLoopAux (tool : ToolEnv) (replies : Nat → Option String) :
    Nat → List Message → Nat → Nat → Nat → LoopOut
  | 0, messages, _, callIdx, dispatches => ⟨"", callIdx, dispatches, true, messages⟩
  | fuel + 1, messages, step_count, callIdx, dispatches =>
    let assistant_reply := pyStrip ((replies callIdx).getD "")
    match parseToolCall assistant_reply with
    | some inv =>
      let result := dispatchTool tool inv.name inv.args
      let messages2 := messages ++ [⟨"system", "Tool output:\n" ++ result⟩]
      if step_count + 1 ≥ 5 then ⟨"", callIdx + 1, dispatches + 1, true, messages2⟩
      else toolLoopAux tool replies fuel messages2 (step_count + 1) (callIdx + 1) (dispatches + 1)
    | none => ⟨assistant_reply, callIdx + 1, dispatches, false, messages⟩

/-- The inner loop started as in main_app.py lines 121-123: step_count 0, no
calls made yet, no dispatches. -/
def toolLoop (tool : ToolEnv) (replies : Nat → Option String) (messages : List Message) : LoopOut :=
  toolLoopAux tool replies 5 messages 0 0 0

/-- The file system visible to the program: an association list from paths to
file contents, first match significant. -/
def fsGet : List (String × String) → String → Option String
  | [], _ => none
  | e :: rest, p => if e.1 = p then some e.2 else fsGet rest p

/-- Remove a path from the file system. -/
def fsDel (fs : List (String × String)) (p : String) : List (String × String) :=
  fs.filter (fun e => e.1 != p)

/-- Write a file, overwriting any previous content at that path (Python
open(path, 'w')). -/
def fsSet (fs : List (String × String)) (p v : String) : List (String × String) :=
  (p, v) :: fsDel fs p

/-- The deterministic summarization fallback of main_app.py line 83: the first
150 characters of full_response followed by an ellipsis when full_response is
longer than 150 characters, full_response itself otherwise. -/
def fallbackSummary (full_response : String) : String :=
  if full_response.length > 150 then full_response.take 150 ++ "..." else full_response

/-- ConversationalAI._muzzle_and_save, main_app.py lines 68-93.  The llm
parameter is the generate_response collaborator applied to the summarization
prompt built from full_response; an Except.error models a raised exception,
caught by the try/except of lines 78-83.  Returns the spoken summary, the
response-file path built from the one-second timestamp (line 86-87), and the
file system after the write of lines 88-89. -/
def muzzleAndSave (llm : String → Except String String) (files : List (String × String))
    (timestamp full_response : String) : String × String × List (String × String) :=
  let spoken_summary :=
    match llm full_response with
    | Except.ok s => s
    | Except.error _ => fallbackSummary full_response
  let file_path := "response_logs/response_" ++ timestamp ++ ".txt"
  (spoken_summary, file_path, fsSet files file_path full_response)

/-- Everything one turn of main_app.py lines 100-206 produces: the final
answer, the spoken summary, the response-file path, the total number of
generate_response calls issued during the turn (loop calls plus the
summarization call of line 79), the number of tool dispatches, the number of
_muzzle_and_save calls, whether the loop exited through the step bound, the
response files written, and the message buffer. -/
structure TurnResult where
  fullResponse : String
  spokenSummary : String
  filePath : String
  inferCalls : Nat
  dispatches : Nat
  finalizeCalls : Nat
  bounded : Bool
  files : List (String × String)
  messages : List Message
deriving DecidableEq, Repr

/-- One turn of ConversationalAI.run, main_app.py lines 100-206, for a heard
utterance: build the initial context of lines 114-118, run the inner tool loop,
then — unconditionally, line 197 — call _muzzle_and_save on full_response
(which is still the empty string of line 121 when the loop exited through the
step-bound break). -/
def runTurn (tool : ToolEnv) (replies : Nat → Option String)
    (llm : String → Except String String)
    (timestamp user_input persona memory_context : String) : TurnResult :=
  let messages : List Message :=
    [⟨"system", persona⟩,
     ⟨"system", "Relevant past context:\n" ++ memory_context⟩,
     ⟨"user", user_input⟩]
  let lo := toolLoop tool replies messages
  let ms := muzzleAndSave llm [] timestamp lo.fullResponse
  { fullResponse := lo.fullResponse
    spokenSummary := ms.1
    filePath := ms.2.1
    inferCalls := lo.inferCallsLoop + 1
    dispatches := lo.dispatches
    finalizeCalls := 1
    bounded := lo.bounded
    files := ms.2.2
    messages := lo.messages }

/-- Content of an Ollama chat reply as handled by llm_service.py lines 33-42:
either a string or a list of strings (joined with spaces). -/
inductive OllamaContent where
  | str : String → OllamaContent
  | list : List String → OllamaContent
deriving DecidableEq, Repr

namespace LLMService

/-- LLMService.generate_response, llm_service.py lines 25-47.  The client
parameter models ollama.chat on the given conversation history; an
Except.error models any raised exception, caught by the except of line 44 and
replaced with the fixed apology string. -/
def generate_response (client : List Message → Except String OllamaContent)
    (conversation_history : List Message) : String :=
  match client conversation_history with
  | Except.ok (.str s) => s
  | Except.ok (.list l) => String.intercalate " " l
  | Except.error _ => "I'm sorry, I encountered an error and couldn't process your request."

end LLMService

/-- Process state relevant to the crash-report lifecycle: the content of
crash_info.txt when the file exists, and the system memory notes added so
far. -/
structure SysState where
  crashFile : Option String
  systemMemory : List String
deriving DecidableEq, Repr

/-- Faults injected into the startup crash drain: whether the open/read of
main_app.py line 59 raises, and whether the os.remove of line 64 raises. -/
structure InitFaults where
  readFails : Bool
  deleteFails : Bool
deriving DecidableEq, Repr

/-- The crash handler of main_app.py lines 222-223: write the exception
description and traceback to crash_info.txt, overwriting any prior content. -/
def recordCrash (st : SysState) (e trace : String) : SysState :=
  { st with crashFile := some (e ++ "\n" ++ trace) }

/-- The startup crash drain of main_app.py lines 56-66: when crash_info.txt
exists, read it, add the crash note to system memory, and remove the file,
with the whole block guarded by try/except — a raised read leaves everything
unchanged, a raised remove leaves the file in place after the note was already
added; both are only logged.  Returns the state after the drain and the
content that was read, if any. -/
def drainPriorCrash (faults : InitFaults) (st : SysState) : SysState × Option String :=
  match st.crashFile with
  | none => (st, none)
  | some crash_details =>
    if faults.readFails then (st, none)
    else
      let st2 := { st with
        systemMemory := st.systemMemory ++ ["(Last crash report: " ++ crash_details ++ ")"] }
      if faults.deleteFails then (st2, some crash_details)
      else ({ st2 with crashFile := none }, some crash_details)

namespace ToolService

/-- ToolService.write_file, tool_service.py lines 35-55.  When the target path
exists, its content is first moved to path + ".bak" with os.replace — or, when
replaceFails injects an os.replace failure, copied there with shutil.copy —
and the success message reports the backup; then the new content is written to
the target.  Returns the file system after the call and the status message. -/
def write_file (replaceFails : Bool) (fs : List (String × String))
    (filepath new_content : String) : List (String × String) × String :=
  match fsGet fs filepath with
  | some old =>
    let backup_path := filepath ++ ".bak"
    let fs1 := if replaceFails then fsSet fs backup_path old
               else fsSet (fsDel fs filepath) backup_path old
    (fsSet fs1 filepath new_content,
     "(Backed up original to " ++ backup_path ++ "). " ++
       "Successfully wrote to " ++ filepath ++ ".")
  | none => (fsSet fs filepath new_content, "Successfully wrote to " ++ filepath ++ ".")

end ToolService

/-- A tool environment in which every tool call returns normally. -/
def okToolEnv : ToolEnv :=
  ⟨fun _ => .ok "file content", fun _ _ => .ok "written", fun _ => .ok "output",
   fun _ => .ok "output", fun _ => .ok "gemini answer"⟩

/-- A tool environment in which every tool call raises. -/
def raisingToolEnv : ToolEnv :=
  ⟨fun _ => .raise "boom", fun _ _ => .raise "boom", fun _ => .raise "boom",
   fun _ => .raise "boom", fun _ => .raise "boom"⟩

/-- An inference collaborator that always returns the same tool-call reply. -/
def alwaysToolReplies : Nat → Option String :=
  fun _ => some "TOOL: read_file(\"notes.txt\")"

/-- A summarization collaborator that always raises. -/
def failingLLM : String → Except String String :=
  fun _ => Except.error "summarization failed"

/-- An inference client that always raises. -/
def failingClient : List Message → Except String OllamaContent :=
  fun _ => Except.error "connection refused"

theorem pyStrip_toList (s : String) : (pyStrip s).toList = pyStripL s.toList := rfl

theorem dropWhile_dropWhile (p : Char → Bool) (l : List Char) :
    (l.dropWhile p).dropWhile p = l.dropWhile p := by
  induction l with
  | nil => rfl
  | cons a t ih =>
    rw [List.dropWhile_cons]
    split
    · exact ih
    · next h => rw [List.dropWhile_cons, if_neg h]

theorem dropWhile_reverse_dropWhile (w : Char → Bool) (l : List Char)
    (h : ∀ a, l.head? = some a → w a = false) :
    ((l.reverse.dropWhile w).reverse).dropWhile w = (l.reverse.dropWhile w).reverse := by
  cases l with
  | nil => rfl
  | cons a t =>
    have ha : w a = false := h a rfl
    rw [List.reverse_cons, List.dropWhile_append]
    split
    · simp [List.dropWhile_cons, ha]
    · rw [List.reverse_append]
      simp [List.dropWhile_cons, ha]

theorem head_dropWhile_false (w : Char → Bool) (l : List Char) (a : Char)
    (h : (l.dropWhile w).head? = some a) : w a = false := by
  have hm := List.head?_dropWhile_not w l
  rw [h] at hm
  exact hm

theorem pyStripL_idem (l : List Char) : pyStripL (pyStripL l) = pyStripL l := by
  unfold pyStripL
  have h2 := dropWhile_reverse_dropWhile pyIsSpace (l.dropWhile pyIsSpace)
    (fun a ha => head_dropWhile_false pyIsSpace l a ha)
  rw [h2, List.reverse_reverse, dropWhile_dropWhile]

theorem fsGet_set_self (fs : List (String × String)) (p v : String) :
    fsGet (fsSet fs p v) p = some v := by
  simp [fsSet, fsGet]

theorem fsGet_del_ne (fs : List (String × String)) (p q : String) (h : q ≠ p) :
    fsGet (fsDel fs p) q = fsGet fs q := by
  induction fs with
  | nil => rfl
  | cons a t ih =>
    rw [fsDel, List.filter_cons]
    rw [fsDel] at ih
    by_cases hap : a.1 = p
    · rw [if_neg (by simp [hap])]
      have haq : ¬ a.1 = q := fun hq => h (hq ▸ hap)
      rw [ih]
      simp only [fsGet]
      rw [if_neg haq]
    · rw [if_pos (by simp only [bne_iff_ne, ne_eq]; exact hap)]
      simp only [fsGet]
      rw [ih]

theorem fsGet_set_ne (fs : List (String × String)) (p q v : String) (h : q ≠ p) :
    fsGet (fsSet fs p v) q = fsGet fs q := by
  rw [fsSet, fsGet, if_neg (fun hpq => h hpq.symm)]
  exact fsGet_del_ne fs p q h

theorem bak_ne (p : String) : p ++ ".bak" ≠ p := by
  intro h
  have hl := congrArg String.length h
  rw [String.length_append] at hl
  have h4 : String.length ".bak" = 4 := rfl
  omega

/-- Claim C6: whenever the secondary summarization call fails during
finalization, the spoken summary falls back deterministically: for a
full_answer of length at most 150 the fallback is full_answer unchanged, and
for a longer full_answer it is the first 150 characters followed by the
ellipsis marker; the fallback itself is a total function. -/
theorem C6_summary_fallback (llm : String → Except String String)
    (files : List (String × String)) (ts full_response e : String)
    (h : llm full_response = Except.error e) :
    (muzzleAndSave llm files ts full_response).1 = fallbackSummary full_response
    ∧ (full_response.length ≤ 150 → fallbackSummary full_response = full_response)
    ∧ (150 < full_response.length →
        fallbackSummary full_response = full_response.take 150 ++ "...") := by
  refine ⟨?_, ?_, ?_⟩
  · simp [muzzleAndSave, h]
  · intro hl
    unfold fallbackSummary
    rw [if_neg (by omega)]
  · intro hl
    unfold fallbackSummary
    rw [if_pos (by omega)]

/-- Witness for C6 at a concrete failing summarizer and answer. -/
theorem C6_summary_fallback_witness :
    (muzzleAndSave failingLLM [] "20260101_120000" "hello").1 = fallbackSummary "hello" :=
  (C6_summary_fallback failingLLM [] "20260101_120000" "hello" "summarization failed" rfl).1

/-- Claim C7 is violated by the code: two finalize calls in the same one-second
timestamp write to the same response-file path, and the second write silently
overwrites the first, so only the second full answer remains stored.  This
theorem evaluates the embedded _muzzle_and_save at the failing input. -/
theorem C7_same_second_overwrite :
    (muzzleAndSave failingLLM [] "20260101_120000" "first answer").2.1
      = (muzzleAndSave failingLLM [] "20260101_120000" "second answer").2.1
    ∧ (muzzleAndSave failingLLM
        ((muzzleAndSave failingLLM [] "20260101_120000" "first answer").2.2)
        "20260101_120000" "second answer").2.2
      = [("response_logs/response_20260101_120000.txt", "second answer")] :=
  ⟨rfl, rfl⟩

/-- Claim C8, amended: after recordCrash, a fault-free startup drain returns
the recorded content, removes the crash file and adds the crash note to system
memory, and a second drain returns nothing and changes nothing; a drain never
raises — with a missing file or a failing read it behaves as if there were no
prior crash; with a failing delete it is also not fatal, but the crash note
has already been added to memory and the file stays in place, so the crash is
not treated as absent. -/
theorem C8_crash_lifecycle (cf : Option String) (mem : List String)
    (e tr c : String) (f : InitFaults) :
    (drainPriorCrash ⟨false, false⟩ (recordCrash ⟨cf, mem⟩ e tr)).2 = some (e ++ "\n" ++ tr)
    ∧ (drainPriorCrash ⟨false, false⟩ (recordCrash ⟨cf, mem⟩ e tr)).1
        = ⟨none, mem ++ ["(Last crash report: " ++ (e ++ "\n" ++ tr) ++ ")"]⟩
    ∧ (drainPriorCrash f ((drainPriorCrash ⟨false, false⟩ (recordCrash ⟨cf, mem⟩ e tr)).1))
        = (((drainPriorCrash ⟨false, false⟩ (recordCrash ⟨cf, mem⟩ e tr)).1), none)
    ∧ (drainPriorCrash f ⟨none, mem⟩) = (⟨none, mem⟩, none)
    ∧ (drainPriorCrash ⟨true, f.deleteFails⟩ ⟨some c, mem⟩) = (⟨some c, mem⟩, none)
    ∧ (drainPriorCrash ⟨false, true⟩ ⟨some c, mem⟩)
        = (⟨some c, mem ++ ["(Last crash report: " ++ c ++ ")"]⟩, some c) :=
  ⟨rfl, rfl, rfl, rfl, rfl, rfl⟩

/-- Counterexample to claim C8 as stated: with a failing delete, the drain is
not treated as "no prior crash" — the crash note is added to system memory,
the content is surfaced, and the crash file remains for the next startup. -/
theorem C8_delete_failure_counterexample :
    (drainPriorCrash ⟨false, true⟩ ⟨some "boom", []⟩).1.systemMemory
        = ["(Last crash report: boom)"]
    ∧ (drainPriorCrash ⟨false, true⟩ ⟨some "boom", []⟩).1.crashFile = some "boom"
    ∧ (drainPriorCrash ⟨false, true⟩ ⟨some "boom", []⟩).2 = some "boom" :=
  ⟨rfl, rfl, rfl⟩

/-- Claim C9: LLMService.generate_response is total and converts any exception
raised by the underlying inference client into the fixed apology string, so a
collaborator failure reaches the orchestrator as an ordinary reply string. -/
theorem C9_generate_response_total
    (client : List Message → Except String OllamaContent)
    (conversation_history : List Message) (e : String)
    (h : client conversation_history = Except.error e) :
    LLMService.generate_response client conversation_history
      = "I'm sorry, I encountered an error and couldn't process your request." := by
  unfold LLMService.generate_response
  rw [h]

/-- Witness for C9 at a concrete failing client. -/
theorem C9_generate_response_total_witness :
    LLMService.generate_response failingClient []
      = "I'm sorry, I encountered an error and couldn't process your request." :=
  C9_generate_response_total failingClient [] "connection refused" rfl

/-- Claim C10: when the target path of write_file already exists, the previous
content is first preserved at the path with the ".bak" suffix (by move, or by
copy when the move fails) before the new content is written, and the success
message reports the backup; on a fresh path only the target file is created
and every other path is unchanged. -/
theorem C10_write_file_backup (replaceFails : Bool) (fs : List (String × String))
    (p c old : String) :
    (fsGet fs p = some old →
      fsGet (ToolService.write_file replaceFails fs p c).1 p = some c
      ∧ fsGet (ToolService.write_file replaceFails fs p c).1 (p ++ ".bak") = some old
      ∧ (ToolService.write_file replaceFails fs p c).2
          = "(Backed up original to " ++ (p ++ ".bak") ++ "). "
              ++ "Successfully wrote to " ++ p ++ ".")
    ∧ (fsGet fs p = none →
      fsGet (ToolService.write_file replaceFails fs p c).1 p = some c
      ∧ (∀ q, q ≠ p → fsGet (ToolService.write_file replaceFails fs p c).1 q = fsGet fs q)
      ∧ (ToolService.write_file replaceFails fs p c).2
          = "Successfully wrote to " ++ p ++ ".") := by
  constructor
  · intro h
    refine ⟨?_, ?_, ?_⟩
    · simp only [ToolService.write_file, h]
      exact fsGet_set_self _ _ _
    · simp only [ToolService.write_file, h]
      rw [fsGet_set_ne _ _ _ _ (bak_ne p)]
      split
      · exact fsGet_set_self _ _ _
      · exact fsGet_set_self _ _ _
    · simp only [ToolService.write_file, h]
  · intro h
    refine ⟨?_, ?_, ?_⟩
    · simp only [ToolService.write_file, h]
      exact fsGet_set_self _ _ _
    · intro q hq
      simp only [ToolService.write_file, h]
      exact fsGet_set_ne _ _ _ _ hq
    · simp only [ToolService.write_file, h]

/-- Witness for C10: a concrete overwrite with backup and a concrete fresh
write. -/
theorem C10_write_file_backup_witness :
    fsGet (ToolService.write_file false [("a.txt", "old")] "a.txt" "new").1 "a.txt" = some "new"
    ∧ fsGet (ToolService.write_file false [("a.txt", "old")] "a.txt" "new").1 ("a.txt" ++ ".bak")
        = some "old"
    ∧ fsGet (ToolService.write_file false [] "b.txt" "fresh").1 "b.txt" = some "fresh" :=
  ⟨((C10_write_file_backup false [("a.txt", "old")] "a.txt" "new" "old").1 rfl).1,
   ((C10_write_file_backup false [("a.txt", "old")] "a.txt" "new" "old").1 rfl).2.1,
   ((C10_write_file_backup false [] "b.txt" "fresh" "old").2 rfl).1⟩

theorem parseToolCall_isSome (s : String) :
    (parseToolCall s).isSome = ("tool:".toList).isPrefixOf (pyLowerL s.toList) := by
  unfold parseToolCall
  split
  · next h =>
    rw [h]
    rfl
  · next h =>
    rw [Bool.not_eq_true] at h
    rw [h]
    rfl

theorem parseToolCall_none_of_no_marker (s : String)
    (h : ("tool:".toList).isPrefixOf (pyLowerL s.toList) = false) :
    parseToolCall s = none := by
  unfold parseToolCall
  rw [h]
  simp

theorem toolLoopAux_none (tool : ToolEnv) (replies : Nat → Option String)
    (fuel : Nat) (msgs : List Message) (step c d : Nat)
    (h : parseToolCall (pyStrip ((replies c).getD "")) = none) :
    toolLoopAux tool replies (fuel + 1) msgs step c d
      = ⟨pyStrip ((replies c).getD ""), c + 1, d, false, msgs⟩ := by
  simp only [toolLoopAux, h]

theorem toolLoopAux_some_break (tool : ToolEnv) (replies : Nat → Option String)
    (fuel : Nat) (msgs : List Message) (step c d : Nat) (inv : ToolInvocation)
    (h : parseToolCall (pyStrip ((replies c).getD "")) = some inv)
    (hs : step + 1 ≥ 5) :
    toolLoopAux tool replies (fuel + 1) msgs step c d
      = ⟨"", c + 1, d + 1, true,
          msgs ++ [⟨"system", "Tool output:\n" ++ dispatchTool tool inv.name inv.args⟩]⟩ := by
  simp only [toolLoopAux, h, if_pos hs]

theorem toolLoopAux_some_continue (tool : ToolEnv) (replies : Nat → Option String)
    (fuel : Nat) (msgs : List Message) (step c d : Nat) (inv : ToolInvocation)
    (h : parseToolCall (pyStrip ((replies c).getD "")) = some inv)
    (hs : ¬ step + 1 ≥ 5) :
    toolLoopAux tool replies (fuel + 1) msgs step c d
      = toolLoopAux tool replies fuel
          (msgs ++ [⟨"system", "Tool output:\n" ++ dispatchTool tool inv.name inv.args⟩])
          (step + 1) (c + 1) (d + 1) := by
  simp only [toolLoopAux, h, if_neg hs]

/-- Claim C3: a model reply is treated as a tool invocation exactly when its
text, stripped of surrounding whitespace and lowered for a case-insensitive
comparison, begins with the literal marker "TOOL:"; when the marker is absent
the parser yields no tool call and the turn finalizes with the reply as the
final answer, dispatching no tool. -/
theorem C3_marker_detection (reply : String) :
    ((parseToolCall (pyStrip reply)).isSome
        = ("tool:".toList).isPrefixOf (pyLowerL (pyStripL reply.toList)))
    ∧ (("tool:".toList).isPrefixOf (pyLowerL (pyStripL reply.toList)) = false
        → parseToolCall (pyStrip reply) = none)
    ∧ (∀ (tool : ToolEnv) (replies : Nat → Option String)
        (llm : String → Except String String) (ts ui p m : String),
        replies 0 = some reply
        → ("tool:".toList).isPrefixOf (pyLowerL (pyStripL reply.toList)) = false
        → (runTurn tool replies llm ts ui p m).fullResponse = pyStrip reply
          ∧ (runTurn tool replies llm ts ui p m).dispatches = 0) := by
  refine ⟨?_, ?_, ?_⟩
  · rw [parseToolCall_isSome, pyStrip_toList]
  · intro h
    exact parseToolCall_none_of_no_marker _ (by rw [pyStrip_toList]; exact h)
  · intro tool replies llm ts ui p m h0 hM
    have hn : parseToolCall (pyStrip ((replies 0).getD "")) = none := by
      rw [h0, Option.getD_some]
      exact parseToolCall_none_of_no_marker _ (by rw [pyStrip_toList]; exact hM)
    have hloop : ∀ msgs, toolLoop tool replies msgs
        = ⟨pyStrip ((replies 0).getD ""), 1, 0, false, msgs⟩ := by
      intro msgs
      rw [toolLoop, show (5 : Nat) = 4 + 1 from rfl,
        toolLoopAux_none tool replies 4 msgs 0 0 0 hn]
    constructor
    · simp only [runTurn, hloop]
      rw [h0]
      rfl
    · simp only [runTurn, hloop]

/-- Witness for C3: a marker-free reply finalizes the turn unchanged. -/
theorem C3_marker_detection_witness :
    (runTurn okToolEnv (fun _ => some "Hi there.") failingLLM "ts" "Hello" "p" "m").fullResponse
      = pyStrip "Hi there." :=
  ((C3_marker_detection "Hi there.").2.2 okToolEnv (fun _ => some "Hi there.") failingLLM
    "ts" "Hello" "p" "m" rfl rfl).1

theorem takeWhile_no_paren (l : List Char) (h : ('(' : Char) ∉ l) :
    l.takeWhile (· != '(') = l :=
  List.takeWhile_eq_self_iff.mpr (fun x hx => by
    simp only [bne_iff_ne, ne_eq]
    exact fun he => h (he ▸ hx))

theorem argsStrOf_nil (reply : String) (h : ('(' : Char) ∉ toolCallOf reply) :
    argsStrOf reply = [] := by
  have hn : toolNameOf reply = toolCallOf reply := by
    unfold toolNameOf
    rw [takeWhile_no_paren _ h]
    show pyStripL (pyStripL (reply.toList.drop 5)) = pyStripL (reply.toList.drop 5)
    exact pyStripL_idem _
  unfold argsStrOf
  rw [hn, List.drop_length]
  rfl

theorem parseArgs_eval_some (args_str : List Char) (vs : List PyLit)
    (hne : args_str ≠ []) (hv : evalPyTuple args_str = some vs) :
    parseArgs args_str = vs := by
  cases args_str with
  | nil => exact absurd rfl hne
  | cons a t => simp [parseArgs, hv]

theorem parseArgs_eval_none (args_str cleaned : List Char)
    (hne : args_str ≠ []) (hv : evalPyTuple args_str = none)
    (hcl : stripCharL '\'' (stripCharL '"' (pyStripL args_str)) = cleaned) :
    parseArgs args_str
      = (if cleaned.isEmpty then [] else [.str (String.mk cleaned)]) := by
  cases args_str with
  | nil => exact absurd rfl hne
  | cons a t => simp [parseArgs, hv, hcl]

/-- Claim C4, amended: for a reply recognized as a tool invocation, the parsed
tool name is the stripped text before the first opening parenthesis and the
arguments are parseArgs of the extracted argument text; when no opening
parenthesis is present, and likewise when the extracted argument text is
empty, the invocation has zero arguments; when the nonempty argument text
evaluates as a parenthesized literal tuple the tuple entries are the
arguments; on evaluation failure the argument text with surrounding whitespace
and quote characters stripped becomes the single string argument when that
stripped text is nonempty — and when stripping leaves the empty string, the
invocation has zero arguments (this last case is where the original claim,
which promised exactly one string argument on every evaluation failure,
fails). -/
theorem C4_argument_extraction (reply : String)
    (hm : ("tool:".toList).isPrefixOf (pyLowerL reply.toList) = true) :
    parseToolCall reply
        = some ⟨String.mk (toolNameOf reply), parseArgs (argsStrOf reply)⟩
    ∧ (('(' : Char) ∉ toolCallOf reply → parseArgs (argsStrOf reply) = [])
    ∧ (argsStrOf reply = [] → parseArgs (argsStrOf reply) = [])
    ∧ (∀ vs, argsStrOf reply ≠ [] → evalPyTuple (argsStrOf reply) = some vs
        → parseArgs (argsStrOf reply) = vs)
    ∧ (argsStrOf reply ≠ [] → evalPyTuple (argsStrOf reply) = none →
        (cleanedOf reply ≠ [] → parseArgs (argsStrOf reply) = [.str (String.mk (cleanedOf reply))])
        ∧ (cleanedOf reply = [] → parseArgs (argsStrOf reply) = [])) := by
  refine ⟨?_, ?_, ?_, ?_, ?_⟩
  · unfold parseToolCall
    rw [hm]
    rfl
  · intro h
    rw [argsStrOf_nil reply h]
    rfl
  · intro h
    rw [h]
    rfl
  · intro vs hne hv
    exact parseArgs_eval_some _ vs hne hv
  · intro hne hv
    constructor
    · intro hc
      rw [parseArgs_eval_none (argsStrOf reply) (cleanedOf reply) hne hv rfl]
      rcases hcc : cleanedOf reply with _ | ⟨a, t⟩
      · exact absurd hcc hc
      · rfl
    · intro hc
      rw [parseArgs_eval_none (argsStrOf reply) (cleanedOf reply) hne hv rfl, hc]
      rfl

/-- Counterexample to claim C4 as stated: for the reply consisting of the
marker, a name and a lone double quote as argument text, the literal
evaluation fails and quote-stripping leaves the empty string, so the parsed
invocation has zero arguments — not exactly one string argument as the claim
requires for every literal-parse failure. -/
theorem C4_argument_extraction_counterexample :
    evalPyTuple (argsStrOf "TOOL: f(\")") = none
    ∧ argsStrOf "TOOL: f(\")" ≠ []
    ∧ parseToolCall "TOOL: f(\")" = some ⟨"f", []⟩ :=
  ⟨rfl, by decide, rfl⟩

/-- Witness for C4 at concrete inputs: a well-formed two-string-argument call
taking the literal-tuple path, and a malformed call taking the fallback
single-string path. -/
theorem C4_argument_extraction_witness :
    parseArgs (argsStrOf "TOOL: write_file(\"a.txt\", \"hi\")")
        = [PyLit.str "a.txt", PyLit.str "hi"]
    ∧ parseArgs (argsStrOf "TOOL: f(not a literal)") = [PyLit.str "not a literal"] :=
  ⟨(C4_argument_extraction "TOOL: write_file(\"a.txt\", \"hi\")" rfl).2.2.2.1
      [PyLit.str "a.txt", PyLit.str "hi"] (by decide) rfl,
   ((C4_argument_extraction "TOOL: f(not a literal)" rfl).2.2.2.2
      (by decide) rfl).1 (by decide)⟩

/-- Claim C5: a dispatch with an unknown tool name or a wrong argument count
produces the synthetic unknown-tool result string rather than raising; an
exception raised during tool execution is caught and converted to the
synthetic execution-error result string; and in either case the loop appends
the result to the conversation context and continues — a tool failure never
terminates the turn. -/
theorem C5_dispatch_errors (tool : ToolEnv) (tool_name : String)
    (args : List PyLit) (e : String) :
    (knownArity tool_name args.length = false →
      dispatchTool tool tool_name args
        = "[Error: Unknown tool or wrong arguments: " ++ tool_name ++ "]")
    ∧ (dispatchBody tool tool_name args = .raise e →
      dispatchTool tool tool_name args
        = "[Error: Exception during tool execution: " ++ e ++ "]")
    ∧ (∀ (replies : Nat → Option String) (fuel : Nat) (msgs : List Message)
        (step c d : Nat) (inv : ToolInvocation),
        parseToolCall (pyStrip ((replies c).getD "")) = some inv
        → step + 1 < 5
        → toolLoopAux tool replies (fuel + 1) msgs step c d
            = toolLoopAux tool replies fuel
                (msgs ++ [⟨"system", "Tool output:\n" ++ dispatchTool tool inv.name inv.args⟩])
                (step + 1) (c + 1) (d + 1)) := by
  refine ⟨?_, ?_, ?_⟩
  · intro h
    have hb : dispatchBody tool tool_name args
        = .ok ("[Error: Unknown tool or wrong arguments: " ++ tool_name ++ "]") := by
      unfold dispatchBody
      split <;> simp_all [knownArity]
    unfold dispatchTool
    rw [hb]
  · intro h
    unfold dispatchTool
    rw [h]
  · intro replies fuel msgs step c d inv hp hs
    exact toolLoopAux_some_continue tool replies fuel msgs step c d inv hp (by omega)

/-- Witness for C5: an unknown tool name, a raising tool, and a continuing
loop step, all at concrete inputs. -/
theorem C5_dispatch_errors_witness :
    dispatchTool okToolEnv "frobnicate" []
        = "[Error: Unknown tool or wrong arguments: frobnicate]"
    ∧ dispatchTool raisingToolEnv "read_file" [.str "notes.txt"]
        = "[Error: Exception during tool execution: boom]"
    ∧ toolLoopAux raisingToolEnv alwaysToolReplies (4 + 1) [] 0 0 0
        = toolLoopAux raisingToolEnv alwaysToolReplies 4
            ([] ++ [⟨"system", "Tool output:\n"
                ++ dispatchTool raisingToolEnv
                    (ToolInvocation.mk "read_file" [.str "notes.txt"]).name
                    (ToolInvocation.mk "read_file" [.str "notes.txt"]).args⟩])
            (0 + 1) (0 + 1) (0 + 1) :=
  ⟨(C5_dispatch_errors okToolEnv "frobnicate" [] "e").1 rfl,
   (C5_dispatch_errors raisingToolEnv "read_file" [.str "notes.txt"] "boom").2.1 rfl,
   (C5_dispatch_errors raisingToolEnv "read_file" [.str "notes.txt"] "boom").2.2
     alwaysToolReplies 4 [] 0 0 0 ⟨"read_file", [.str "notes.txt"]⟩ rfl (by omega)⟩

theorem toolLoopAux_calls_le (tool : ToolEnv) (replies : Nat → Option String) :
    ∀ (fuel : Nat) (msgs : List Message) (step c d : Nat),
      (toolLoopAux tool replies fuel msgs step c d).inferCallsLoop ≤ c + fuel := by
  intro fuel
  induction fuel with
  | zero =>
    intro msgs step c d
    show c ≤ c + 0
    omega
  | succ f ih =>
    intro msgs step c d
    rcases hp : parseToolCall (pyStrip ((replies c).getD "")) with _ | inv
    · rw [toolLoopAux_none tool replies f msgs step c d hp]
      show c + 1 ≤ c + (f + 1)
      omega
    · by_cases hs : step + 1 ≥ 5
      · rw [toolLoopAux_some_break tool replies f msgs step c d inv hp hs]
        show c + 1 ≤ c + (f + 1)
        omega
      · rw [toolLoopAux_some_continue tool replies f msgs step c d inv hp hs]
        have h2 := ih (msgs ++ [⟨"system", "Tool output:\n"
          ++ dispatchTool tool inv.name inv.args⟩]) (step + 1) (c + 1) (d + 1)
        omega

/-- Claim C1: a turn issues at most bound + 1 = 6 model-inference calls — at
most 5 from the inner tool loop (the step bound of 5 counts tool dispatches
only) plus the one summarization call of finalization — for every inference
collaborator, in particular one that always returns a tool-call reply. -/
theorem C1_inference_call_bound (tool : ToolEnv) (replies : Nat → Option String)
    (llm : String → Except String String) (ts ui p m : String) :
    (runTurn tool replies llm ts ui p m).inferCalls ≤ 6
    ∧ ∀ msgs, (toolLoop tool replies msgs).inferCallsLoop ≤ 5 := by
  constructor
  · have h := toolLoopAux_calls_le tool replies 5
      [⟨"system", p⟩, ⟨"system", "Relevant past context:\n" ++ m⟩, ⟨"user", ui⟩] 0 0 0
    simp only [runTurn, toolLoop]
    omega
  · intro msgs
    have h := toolLoopAux_calls_le tool replies 5 msgs 0 0 0
    simp only [toolLoop]
    omega

theorem toolLoopAux_always_tool (tool : ToolEnv) (replies : Nat → Option String)
    (h : ∀ i, (parseToolCall (pyStrip ((replies i).getD ""))).isSome = true) :
    ∀ (fuel : Nat) (msgs : List Message) (step c d : Nat),
      step + fuel = 5 → 1 ≤ fuel →
      ∃ ms, toolLoopAux tool replies fuel msgs step c d
        = ⟨"", c + fuel, d + fuel, true, ms⟩ := by
  intro fuel
  induction fuel with
  | zero =>
    intro msgs step c d hsf h1
    exact absurd h1 (by omega)
  | succ f ih =>
    intro msgs step c d hsf _
    obtain ⟨inv, hi⟩ := Option.isSome_iff_exists.mp (h c)
    by_cases hf : f = 0
    · subst hf
      refine ⟨msgs ++ [⟨"system", "Tool output:\n"
        ++ dispatchTool tool inv.name inv.args⟩], ?_⟩
      rw [toolLoopAux_some_break tool replies 0 msgs step c d inv hi (by omega)]
    · obtain ⟨ms, hms⟩ := ih (msgs ++ [⟨"system", "Tool output:\n"
        ++ dispatchTool tool inv.name inv.args⟩]) (step + 1) (c + 1) (d + 1)
        (by omega) (by omega)
      refine ⟨ms, ?_⟩
      rw [toolLoopAux_some_continue tool replies f msgs step c d inv hi (by omega), hms]
      congr 1 <;> omega

/-- Claim C2, amended: when the inference collaborator always returns a
tool-call reply, the turn hits the step bound after exactly 5 tool dispatches
and the partial reply that triggered the last dispatch is discarded (the full
answer stays empty) — but finalization still happens for the turn: the code
unconditionally calls _muzzle_and_save after the loop, so the summarization
call is made (6 inference calls in all) and a response file containing the
empty answer is written. -/
theorem C2_step_bound_abort (tool : ToolEnv) (replies : Nat → Option String)
    (llm : String → Except String String) (ts ui p m : String)
    (h : ∀ i, (parseToolCall (pyStrip ((replies i).getD ""))).isSome = true) :
    (runTurn tool replies llm ts ui p m).dispatches = 5
    ∧ (runTurn tool replies llm ts ui p m).bounded = true
    ∧ (runTurn tool replies llm ts ui p m).fullResponse = ""
    ∧ (runTurn tool replies llm ts ui p m).finalizeCalls = 1
    ∧ (runTurn tool replies llm ts ui p m).inferCalls = 6
    ∧ (runTurn tool replies llm ts ui p m).files
        = [("response_logs/response_" ++ ts ++ ".txt", "")] := by
  obtain ⟨ms, hms⟩ := toolLoopAux_always_tool tool replies h 5
    [⟨"system", p⟩, ⟨"system", "Relevant past context:\n" ++ m⟩, ⟨"user", ui⟩]
    0 0 0 (by omega) (by omega)
  refine ⟨?_, ?_, ?_, ?_, ?_, ?_⟩
  · simp only [runTurn, toolLoop]
    rw [hms]
  · simp only [runTurn, toolLoop]
    rw [hms]
  · simp only [runTurn, toolLoop]
    rw [hms]
  · simp only [runTurn, toolLoop]
  · simp only [runTurn, toolLoop]
    rw [hms]
  · simp only [runTurn, toolLoop, muzzleAndSave]
    rw [hms]
    rfl

/-- Counterexample to claim C2 as stated: with an inference collaborator that
always replies with a tool call, the finalize step still occurs — the
_muzzle_and_save call count is 1, a sixth inference call is made for the
summary, and a response file holding the empty answer is written — although
the claim states that no finalize call occurs for an aborted turn. -/
theorem C2_step_bound_abort_counterexample :
    (runTurn okToolEnv alwaysToolReplies failingLLM "20260101_120000" "hi" "p" "m").finalizeCalls
        = 1
    ∧ (runTurn okToolEnv alwaysToolReplies failingLLM "20260101_120000" "hi" "p" "m").files
        = [("response_logs/response_20260101_120000.txt", "")]
    ∧ (runTurn okToolEnv alwaysToolReplies failingLLM "20260101_120000" "hi" "p" "m").inferCalls
        = 6
    ∧ (runTurn okToolEnv alwaysToolReplies failingLLM "20260101_120000" "hi" "p" "m").dispatches
        = 5 :=
  ⟨rfl, rfl, rfl, rfl⟩

/-- Witness for C2 amended at a concrete always-tool collaborator. -/
theorem C2_step_bound_abort_witness :
    (∀ i : Nat, (parseToolCall (pyStrip ((alwaysToolReplies i).getD ""))).isSome = true)
    ∧ (runTurn okToolEnv alwaysToolReplies failingLLM "ts" "hi" "p" "m").dispatches = 5 :=
  ⟨fun _ => rfl,
   (C2_step_bound_abort okToolEnv alwaysToolReplies failingLLM "ts" "hi" "p" "m"
     (fun _ => rfl)).1⟩
